import Mathlib

/-!
Shallow embedding of the frame-presentation timing loop of `src/src/main.rs`
(crate `timings`).  The `run` function drives a winit event loop; on every
`RedrawRequested` event it acquires a swapchain texture, issues a draw on even
frame indices, presents, busy-waits on `GetFrameStatistics` until
`PresentCount` changes, and appends two `VBlankRecord`s (a hardware one tagged
"sync_qpc_time" and a CPU one tagged "cpu_time").  Once
`running_frame > COLLECT_FRAMES` the accumulated records are written as CSV to
`example.csv` and the loop exits.

The embedding models one capture run as a fold over a list of per-redraw
environment inputs (`FrameInput`): whether `get_current_texture` succeeds, the
stream of `DXGI_FRAME_STATISTICS` samples the busy-wait loop will observe, and
the CPU-clock elapsed nanoseconds read after the poll.  Machine integers are
modelled as `Nat` (for the `u32` counters and the non-negative frame index,
which stays below `COLLECT_FRAMES + 2`) and `Int` with an explicit two's
complement wrap `i64wrap` where the code performs `i64` arithmetic or casts.
-/

namespace Timings

/-- Two's complement interpretation of an `Int` reduced modulo `2 ^ 64`:
the value an `i64` holds after wrapping arithmetic or an `as i64` cast. -/
def i64wrap (x : Int) : Int := (x + 2 ^ 63) % 2 ^ 64 - 2 ^ 63

/-- The fields of `DXGI_FRAME_STATISTICS` that `run` reads: `PresentCount`
and `PresentRefreshCount` are `u32`, `SyncQPCTime` is a signed 64-bit QPC
timestamp.  (The API struct has further fields the program never touches.) -/
structure DXGIFrameStatistics where
  PresentCount : Nat
  PresentRefreshCount : Nat
  SyncQPCTime : Int
deriving DecidableEq, Repr

/-- `struct VBlankRecord { timestamp: i64, count: i64, event_type: String }`
(main.rs lines 12-17). -/
structure VBlankRecord where
  timestamp : Int
  count : Int
  event_type : String
deriving DecidableEq, Repr

/-- `const COLLECT_FRAMES: i64 = 1000;` (main.rs line 37). -/
def COLLECT_FRAMES : Nat := 1000

/-- The mutable state threaded through redraw iterations: the record vector,
`running_frame`, and `last_frame` (the last observed `PresentCount`).
`drawLog` is a ghost event log, one entry per redraw, recording whether the
iteration issued `rpass.draw` (true) or skipped it (false); it is observation
only and influences nothing. -/
structure RunState where
  records : List VBlankRecord
  running_frame : Nat
  last_frame : Nat
  drawLog : List Bool
deriving DecidableEq, Repr

/-- State at loop entry: empty records, `running_frame = 0`, `last_frame = 0`
(main.rs lines 137, 145-146). -/
def initState : RunState := ⟨[], 0, 0, []⟩

/-- The duty-cycle decision `running_frame % 2 == 0` guarding `rpass.draw`
(main.rs lines 198-202). -/
def drawsOnFrame (running_frame : Nat) : Bool := running_frame % 2 == 0

/-- The busy-wait of main.rs lines 209-216: sample `get_frame_stats`, and
while `PresentCount == last_frame` sample again.  `samples` is the stream of
values successive `get_frame_stats` calls return; the loop consumes them in
order and stops at the first whose `PresentCount` differs from `last`.
`none` models the stream never changing (the poller spinning forever). -/
def pollLoop (last : Nat) : List DXGIFrameStatistics → Option (DXGIFrameStatistics × List DXGIFrameStatistics)
  | [] => none
  | s :: rest => if s.PresentCount == last then pollLoop last rest else some (s, rest)

/-- Environment of one `RedrawRequested` iteration: whether
`surface.get_current_texture()` succeeds (its failure makes the `.expect` on
main.rs line 173 abort the process), the sample stream the busy-wait will
observe, and `cpu_start.elapsed().as_nanos()` (a `u128`) read after the poll. -/
structure FrameInput where
  acquireOk : Bool
  samples : List DXGIFrameStatistics
  cpuElapsedNs : Nat
deriving DecidableEq, Repr

/-- The record pushed at main.rs lines 226-230: timestamp
`present_stats.SyncQPCTime - win_start` (`i64` arithmetic), count
`present_stats.PresentRefreshCount as i64`, tag "sync_qpc_time". -/
def mkHwRecord (win_start : Int) (s : DXGIFrameStatistics) : VBlankRecord :=
  ⟨i64wrap (s.SyncQPCTime - win_start), (s.PresentRefreshCount : Int), "sync_qpc_time"⟩

/-- The record pushed at main.rs lines 232-236: timestamp
`(cpu_start.elapsed().as_nanos() / 100) as i64` (`u128` division, then a
truncating cast), same count, tag "cpu_time". -/
def mkCpuRecord (cpuElapsedNs : Nat) (s : DXGIFrameStatistics) : VBlankRecord :=
  ⟨i64wrap ((cpuElapsedNs / 100 : Nat) : Int), (s.PresentRefreshCount : Int), "cpu_time"⟩

/-- Result of one redraw iteration: `ok` (records appended, counters updated),
`panicked` (the `.expect` on texture acquisition fired and the process
aborted), or `starved` (the busy-wait never saw `PresentCount` change). -/
inductive StepResult
  | ok (st : RunState)
  | panicked (st : RunState)
  | starved (st : RunState)
deriving DecidableEq, Repr

/-- One `WindowEvent::RedrawRequested` iteration (main.rs lines 170-238,
stopping before the budget check): acquire the texture (or abort), issue the
duty-cycle draw, present, busy-wait for a new sample, then append the
hardware record followed by the CPU record — both carrying the sample's
`PresentRefreshCount` — update `last_frame` to the sample's `PresentCount`
and increment `running_frame`. -/
def redrawStep (win_start : Int) (inp : FrameInput) (st : RunState) : StepResult :=
  if inp.acquireOk then
    match pollLoop st.last_frame inp.samples with
    | none => .starved { st with drawLog := st.drawLog ++ [drawsOnFrame st.running_frame] }
    | some (s, _) =>
        .ok { records := st.records ++ [mkHwRecord win_start s, mkCpuRecord inp.cpuElapsedNs s],
              running_frame := st.running_frame + 1,
              last_frame := s.PresentCount,
              drawLog := st.drawLog ++ [drawsOnFrame st.running_frame] }
  else .panicked st

/-- The fixed output path of `write_df_csv` (main.rs line 326). -/
def OUTPUT_PATH : String := "example.csv"

/-- Header row of the exported CSV: the `struct_to_dataframe!` invocation at
main.rs lines 243-246 lists the columns `[timestamp, count, event_type]` in
that order, and `CsvWriter` is configured with `include_header(true)`. -/
def csvHeader : String := "timestamp,count,event_type"

/-- One CSV data row: the record's fields in column order, separated by the
configured separator `b','` (main.rs line 330). -/
def recordCsvRow (r : VBlankRecord) : String :=
  toString r.timestamp ++ "," ++ toString r.count ++ "," ++ r.event_type

/-- Outcome of the export: either the full table was written to the fixed
path, or the process aborted (the `.expect` in `write_df_csv` on failure of
`File::create`, or the `.unwrap` at the call site on a writer error). -/
inductive ExportResult
  | written (path : String) (lines : List String)
  | exportPanicked
deriving DecidableEq, Repr

/-- `write_df_csv` (main.rs lines 325-332) together with the `.unwrap()` at
its call site (line 248): `createOk` models `File::create("example.csv")`
succeeding, `writeOk` the `CsvWriter::finish` call succeeding; any failure
aborts the process.  On success the file holds the header row followed by one
row per record, in record order. -/
def write_df_csv (createOk writeOk : Bool) (rs : List VBlankRecord) : ExportResult :=
  if createOk && writeOk then .written OUTPUT_PATH (csvHeader :: rs.map recordCsvRow)
  else .exportPanicked

/-- Outcome of a capture run: `finished` (budget exhausted, export attempted,
`target.exit()` reached if the export did not abort), `panicked` / `starved`
propagated from a step, or `outOfInputs` (the modelled event stream ended
before the budget was reached — the real loop would simply keep running). -/
inductive Outcome
  | finished (st : RunState) (res : ExportResult)
  | panicked (st : RunState)
  | starved (st : RunState)
  | outOfInputs (st : RunState)
deriving DecidableEq, Repr

/-- The capture loop (main.rs lines 149-258 restricted to `RedrawRequested`
events): run one redraw iteration per input; after each, if
`running_frame > budget` write the CSV and exit, otherwise continue with the
next redraw.  `budget` is instantiated with `COLLECT_FRAMES` by the program. -/
def runCapture (win_start : Int) (createOk writeOk : Bool) (budget : Nat) :
    RunState → List FrameInput → Outcome
  | st, [] => .outOfInputs st
  | st, inp :: rest =>
    match redrawStep win_start inp st with
    | .panicked st' => .panicked st'
    | .starved st' => .starved st'
    | .ok st' =>
      if st'.running_frame > budget then
        .finished st' (write_df_csv createOk writeOk st'.records)
      else
        runCapture win_start createOk writeOk budget st' rest

/-- Records held by a step result, whatever the constructor. -/
def stepRecords : StepResult → List VBlankRecord
  | .ok st => st.records
  | .panicked st => st.records
  | .starved st => st.records

/-- Records held at a run's outcome, whatever the constructor. -/
def outcomeRecords : Outcome → List VBlankRecord
  | .finished st _ => st.records
  | .panicked st => st.records
  | .starved st => st.records
  | .outOfInputs st => st.records

/-- Whether a run completed (reached the export and `target.exit()`). -/
def outcomeIsFinished : Outcome → Bool
  | .finished _ _ => true
  | _ => false

/-- Surface configuration size at window creation (main.rs lines 42-44):
`size.width.max(1)`, `size.height.max(1)` on the `u32` window dimensions. -/
def initialSurfaceSize (w h : Nat) : Nat × Nat := (max w 1, max h 1)

/-- Surface configuration size on `WindowEvent::Resized` (main.rs lines
162-166): `config.width = new_size.width.max(1)` and likewise for height,
then `surface.configure`. -/
def resizeSurfaceSize (w h : Nat) : Nat × Nat := (max w 1, max h 1)

/-- Modelled from the spec: the serial external-signal channel is absent from
the source under `src/` (the port-opening code at main.rs lines 129-135 is
commented out and no serial write exists); this models the external-signal
contract of spec section 4.4: a write's payload is the frame index plus one
encoded as a fixed-width big-endian byte sequence (four bytes here), and
every write is followed by an explicit flush. -/
def beBytes32 (v : Nat) : List Nat :=
  [v / 2 ^ 24 % 256, v / 2 ^ 16 % 256, v / 2 ^ 8 % 256, v % 256]

/-- Modelled from the spec: one blocking write on the external channel,
with its payload bytes and whether it was followed by a flush. -/
structure SerialWrite where
  bytes : List Nat
  flushed : Bool
deriving DecidableEq, Repr

/-- Modelled from the spec: during the iteration with frame index
`frameIdx`, the core writes `big_endian(frameIdx + 1)` and flushes when
`frameIdx` is among the first `extFrames` frames, and writes nothing
otherwise. -/
def serialSignal (extFrames frameIdx : Nat) : Option SerialWrite :=
  if frameIdx < extFrames then some ⟨beBytes32 (frameIdx + 1), true⟩ else none

/-- Modelled from the spec: the sequence of external-channel writes emitted
over a run executing `frames` redraw iterations (frame indices
`0 .. frames - 1`, in order). -/
def serialWrites (extFrames frames : Nat) : List SerialWrite :=
  (List.range frames).filterMap (serialSignal extFrames)

/-- Modelled from the spec: a run with frame budget `b` executes `b + 1`
redraw iterations before the budget check `running_frame > b` stops it
(records are appended and the index incremented before the check), so these
are the writes of a budget-`b` run. -/
def serialWritesForBudget (b extFrames : Nat) : List SerialWrite :=
  serialWrites extFrames (b + 1)

/-! ### Auxiliary definitions for the development -/

/-- Induction on lists two elements at a time. -/
def twoStepInduction {α : Type} {P : List α → Prop}
    (nil : P [])
    (single : ∀ a, P [a])
    (cons2 : ∀ a b l, P l → P (a :: b :: l)) : ∀ l, P l
  | [] => nil
  | [a] => single a
  | a :: b :: l => cons2 a b l (twoStepInduction nil single cons2 l)

/-- The record log's shape invariant: records come in adjacent pairs, a
"sync_qpc_time" record followed by a "cpu_time" record sharing its `count`. -/
def alternatingPairs : List VBlankRecord → Bool
  | [] => true
  | [_] => false
  | h :: c :: rest =>
    (h.event_type == "sync_qpc_time") && (c.event_type == "cpu_time") &&
      (h.count == c.count) && alternatingPairs rest

/-- Invariant maintained by the capture loop: the record log holds exactly
two records per completed frame, in well-formed pairs whose tags are the two
strings the program ever writes, and the ghost draw log records a draw
exactly on the even frame indices. -/
def StateWF (st : RunState) : Prop :=
  st.records.length = 2 * st.running_frame ∧
  alternatingPairs st.records = true ∧
  st.drawLog = (List.range st.running_frame).map (fun i => i % 2 == 0) ∧
  ∀ r ∈ st.records, r.event_type = "sync_qpc_time" ∨ r.event_type = "cpu_time"

/-- A deterministic environment driving the run to completion: the `n`
redraw iterations starting when `last_frame = c` each offer a single sample
whose `PresentCount` is one more than the previous one. -/
def mkInputs : Nat → Nat → List FrameInput
  | _, 0 => []
  | c, n + 1 => ⟨true, [⟨c + 1, c + 1, 0⟩], 0⟩ :: mkInputs (c + 1) n

/-! ### Concrete fixtures for witnesses and counterexamples -/

/-- A sample whose `PresentCount` has advanced past the initial 0. -/
def tinySample : DXGIFrameStatistics := ⟨1, 1, 0⟩

/-- A single redraw environment: acquisition succeeds and the first poll
already sees a new sample. -/
def tinyInput : FrameInput := ⟨true, [tinySample], 0⟩

/-- The one-frame event stream. -/
def tinyInputs : List FrameInput := [tinyInput]

/-- The state after running `tinyInput` from `initState`. -/
def tinyState : RunState :=
  ⟨[mkHwRecord 0 tinySample, mkCpuRecord 0 tinySample], 1, 1, [true]⟩

/-- A sample the busy-wait discards: its `PresentCount` still equals 0. -/
def pollSampleA : DXGIFrameStatistics := ⟨0, 9, 0⟩

/-- The sample the busy-wait accepts next. -/
def pollSampleB : DXGIFrameStatistics := ⟨1, 9, 5⟩

/-- A redraw environment whose first poll still sees the old count. -/
def pollInput : FrameInput := ⟨true, [pollSampleA, pollSampleB], 300⟩

/-- The state after running `pollInput` from `initState`. -/
def pollState : RunState :=
  ⟨[mkHwRecord 0 pollSampleB, mkCpuRecord 300 pollSampleB], 1, 1, [true]⟩

/-- A redraw on which `surface.get_current_texture()` fails. -/
def badInput : FrameInput := ⟨false, [], 0⟩

/-- One good frame, then an acquisition failure on the second frame. -/
def c7Inputs : List FrameInput := [tinyInput, badInput]

/-! ### Helper lemmas -/

/-- `i64wrap` is the identity on values inside the `i64` range. -/
theorem i64wrap_eq_self (x : Int) (h1 : -(2 ^ 63) ≤ x) (h2 : x < 2 ^ 63) :
    i64wrap x = x := by
  have e1 : (2 : Int) ^ 63 = 9223372036854775808 := by norm_num
  have e2 : (2 : Int) ^ 64 = 18446744073709551616 := by norm_num
  unfold i64wrap
  rw [e1, e2]
  rw [e1] at h1 h2
  rw [Int.emod_eq_of_lt (by omega) (by omega)]
  omega

/-- Appending one well-formed pair preserves `alternatingPairs` on a log of
even length. -/
theorem alternatingPairs_append_pair (h c : VBlankRecord)
    (hh : h.event_type = "sync_qpc_time") (hc : c.event_type = "cpu_time")
    (hcount : h.count = c.count) :
    ∀ xs : List VBlankRecord, xs.length % 2 = 0 → alternatingPairs xs = true →
      alternatingPairs (xs ++ [h, c]) = true := by
  intro xs
  induction xs using twoStepInduction with
  | nil =>
      intro _ _
      simp [alternatingPairs, hh, hc, hcount]
  | single a =>
      intro hlen _
      simp at hlen
  | cons2 a b l ih =>
      intro hlen halt
      simp only [alternatingPairs, Bool.and_eq_true] at halt
      simp only [List.cons_append, alternatingPairs, Bool.and_eq_true]
      refine ⟨⟨⟨halt.1.1.1, halt.1.1.2⟩, halt.1.2⟩, ?_⟩
      apply ih
      · simp only [List.length_cons] at hlen
        omega
      · exact halt.2

/-- Soundness of the busy-wait: when `pollLoop` returns a sample, that sample
is the first in the stream whose `PresentCount` differs from `last`, and all
samples consumed before it had `PresentCount = last`. -/
theorem pollLoop_sound (last : Nat) :
    ∀ (samples : List DXGIFrameStatistics) (s : DXGIFrameStatistics)
      (rest : List DXGIFrameStatistics),
      pollLoop last samples = some (s, rest) →
      ∃ pre, samples = pre ++ s :: rest ∧
        (∀ x ∈ pre, x.PresentCount = last) ∧ s.PresentCount ≠ last := by
  intro samples
  induction samples with
  | nil => intro s rest h; simp [pollLoop] at h
  | cons a tl ih =>
      intro s rest h
      by_cases ha : a.PresentCount = last
      · rw [pollLoop, if_pos (by simp [ha])] at h
        obtain ⟨pre, hpre, hall, hne⟩ := ih s rest h
        exact ⟨a :: pre, by simp [hpre], by simpa [ha] using hall, hne⟩
      · rw [pollLoop, if_neg (by simp [ha])] at h
        injection h with h
        injection h with h1 h2
        subst h1; subst h2
        exact ⟨[], rfl, by simp, ha⟩

/-- Anatomy of a successful redraw step. -/
theorem redrawStep_ok_elim (w : Int) (inp : FrameInput) (st st' : RunState)
    (h : redrawStep w inp st = .ok st') :
    inp.acquireOk = true ∧
    ∃ s rest, pollLoop st.last_frame inp.samples = some (s, rest) ∧
      st' = { records := st.records ++ [mkHwRecord w s, mkCpuRecord inp.cpuElapsedNs s],
              running_frame := st.running_frame + 1,
              last_frame := s.PresentCount,
              drawLog := st.drawLog ++ [drawsOnFrame st.running_frame] } := by
  by_cases hacq : inp.acquireOk
  · rw [redrawStep, if_pos hacq] at h
    cases hpoll : pollLoop st.last_frame inp.samples with
    | none => rw [hpoll] at h; simp at h
    | some pr =>
        obtain ⟨s, rest⟩ := pr
        rw [hpoll] at h
        simp only [StepResult.ok.injEq] at h
        exact ⟨hacq, s, rest, rfl, h.symm⟩
  · rw [redrawStep, if_neg hacq] at h
    simp at h

/-- The initial state satisfies the invariant. -/
theorem initState_WF : StateWF initState := by
  refine ⟨rfl, rfl, ?_, ?_⟩ <;> simp [initState]

/-- A successful redraw step preserves the invariant. -/
theorem redrawStep_ok_WF (w : Int) (inp : FrameInput) (st st' : RunState)
    (h : redrawStep w inp st = .ok st') (hwf : StateWF st) : StateWF st' := by
  obtain ⟨hlen, halt, hdraw, htags⟩ := hwf
  obtain ⟨-, s, rest, -, hst⟩ := redrawStep_ok_elim w inp st st' h
  subst hst
  refine ⟨?_, ?_, ?_, ?_⟩
  · simp [hlen]; omega
  · exact alternatingPairs_append_pair (mkHwRecord w s) (mkCpuRecord inp.cpuElapsedNs s)
      rfl rfl rfl st.records (by omega) halt
  · simp only [hdraw, drawsOnFrame, List.range_succ, List.map_append, List.map_cons,
      List.map_nil]
  · intro r hr
    rcases List.mem_append.mp hr with hold | hnew
    · exact htags r hold
    · simp only [List.mem_cons, List.not_mem_nil, or_false] at hnew
      rcases hnew with h1 | h1
      · subst h1; left; rfl
      · subst h1; right; rfl

/-- Every finished run's final state satisfies the invariant when the initial
state does. -/
theorem runCapture_finished_WF (w : Int) (c1 c2 : Bool) (b : Nat) :
    ∀ (inputs : List FrameInput) (st st' : RunState) (res : ExportResult),
      runCapture w c1 c2 b st inputs = .finished st' res → StateWF st → StateWF st' := by
  intro inputs
  induction inputs with
  | nil => intro st st' res h _; simp [runCapture] at h
  | cons inp rest ih =>
      intro st st' res h hwf
      rw [runCapture] at h
      cases hstep : redrawStep w inp st with
      | panicked s => rw [hstep] at h; simp at h
      | starved s => rw [hstep] at h; simp at h
      | ok s =>
          rw [hstep] at h
          simp only at h
          by_cases hb : s.running_frame > b
          · rw [if_pos hb] at h
            simp only [Outcome.finished.injEq] at h
            rw [← h.1]
            exact redrawStep_ok_WF w inp st s hstep hwf
          · rw [if_neg hb] at h
            exact ih s st' res h (redrawStep_ok_WF w inp st s hstep hwf)

/-- Every finished run's export result is the CSV write of the final
records, and its final `running_frame` is `budget + 1` when it started at or
below the budget. -/
theorem runCapture_finished_elim (w : Int) (c1 c2 : Bool) (b : Nat) :
    ∀ (inputs : List FrameInput) (st st' : RunState) (res : ExportResult),
      runCapture w c1 c2 b st inputs = .finished st' res →
      res = write_df_csv c1 c2 st'.records ∧
        (st.running_frame ≤ b → st'.running_frame = b + 1) := by
  intro inputs
  induction inputs with
  | nil => intro st st' res h; simp [runCapture] at h
  | cons inp rest ih =>
      intro st st' res h
      rw [runCapture] at h
      cases hstep : redrawStep w inp st with
      | panicked s => rw [hstep] at h; simp at h
      | starved s => rw [hstep] at h; simp at h
      | ok s =>
          rw [hstep] at h
          simp only at h
          have hfr : s.running_frame = st.running_frame + 1 :=
            by obtain ⟨-, s0, r0, -, hst⟩ := redrawStep_ok_elim w inp st s hstep
               rw [hst]
          by_cases hb : s.running_frame > b
          · rw [if_pos hb] at h
            simp only [Outcome.finished.injEq] at h
            refine ⟨by rw [← h.1, ← h.2], ?_⟩
            intro hle
            rw [← h.1]
            omega
          · rw [if_neg hb] at h
            obtain ⟨hres, hfin⟩ := ih s st' res h
            exact ⟨hres, fun _ => hfin (by omega)⟩

/-- Feeding the loop exactly `budget + 1 - running_frame` such iterations
finishes the run. -/
theorem runCapture_mkInputs_completes (w : Int) (c1 c2 : Bool) (b : Nat) :
    ∀ (n : Nat) (c : Nat) (st : RunState),
      st.last_frame = c → st.running_frame + n = b + 1 → st.running_frame ≤ b →
      ∃ st' res, runCapture w c1 c2 b st (mkInputs c n) = .finished st' res := by
  intro n
  induction n with
  | zero => intro c st _ hsum hle; omega
  | succ m ih =>
      intro c st hlast hsum hle
      have hstep : redrawStep w ⟨true, [⟨c + 1, c + 1, 0⟩], 0⟩ st =
          .ok { records := st.records ++
                  [mkHwRecord w ⟨c + 1, c + 1, 0⟩, mkCpuRecord 0 ⟨c + 1, c + 1, 0⟩],
                running_frame := st.running_frame + 1,
                last_frame := c + 1,
                drawLog := st.drawLog ++ [drawsOnFrame st.running_frame] } := by
        rw [redrawStep, if_pos rfl]
        have : pollLoop st.last_frame [⟨c + 1, c + 1, 0⟩] =
            some (⟨c + 1, c + 1, 0⟩, []) := by
          rw [pollLoop, if_neg]
          simp [hlast]
        rw [this]
      rw [mkInputs, runCapture, hstep]
      simp only
      by_cases hb : st.running_frame + 1 > b
      · rw [if_pos hb]
        exact ⟨_, _, rfl⟩
      · rw [if_neg hb]
        exact ih (c + 1) _ rfl (by simp; omega) (by simp; omega)

/-! ### Claim theorems -/

/-- C1 (amended): for every completed capture run with frame budget
`COLLECT_FRAMES`, the record log at export time contains exactly
`2 * (COLLECT_FRAMES + 1)` records, in adjacent hardware-time/cpu-time pairs
(one pair per captured frame): the loop appends its two records and
increments `running_frame` before the `running_frame > COLLECT_FRAMES`
check, so it captures `COLLECT_FRAMES + 1` frames, not `COLLECT_FRAMES`. -/
theorem C1_record_log_size (w : Int) (c1 c2 : Bool) (inputs : List FrameInput)
    (st' : RunState) (res : ExportResult)
    (h : runCapture w c1 c2 COLLECT_FRAMES initState inputs = .finished st' res) :
    st'.records.length = 2 * (COLLECT_FRAMES + 1) ∧
    alternatingPairs st'.records = true := by
  obtain ⟨hlen, halt, -, -⟩ :=
    runCapture_finished_WF w c1 c2 COLLECT_FRAMES inputs initState st' res h initState_WF
  have hfr :=
    (runCapture_finished_elim w c1 c2 COLLECT_FRAMES inputs initState st' res h).2
      (Nat.zero_le _)
  rw [hlen, hfr]
  exact ⟨rfl, halt⟩

/-- C1 witness: a concrete environment that completes the budget-1000 run,
with the record count the amended claim states. -/
theorem C1_record_log_size_witness :
    ∃ st' res,
      runCapture 0 true true COLLECT_FRAMES initState
          (mkInputs 0 (COLLECT_FRAMES + 1)) = .finished st' res ∧
      st'.records.length = 2 * (COLLECT_FRAMES + 1) := by
  obtain ⟨st', res, h⟩ :=
    runCapture_mkInputs_completes 0 true true COLLECT_FRAMES (COLLECT_FRAMES + 1) 0
      initState rfl (by norm_num [initState]) (Nat.zero_le _)
  exact ⟨st', res, h, (C1_record_log_size 0 true true _ st' res h).1⟩

/-- C1 counterexample: the same concrete environment completes the run, yet
the log holds 2002 records, not `2 * COLLECT_FRAMES = 2000`. -/
theorem C1_counterexample :
    outcomeIsFinished
        (runCapture 0 true true COLLECT_FRAMES initState
          (mkInputs 0 (COLLECT_FRAMES + 1))) = true ∧
    (outcomeRecords
        (runCapture 0 true true COLLECT_FRAMES initState
          (mkInputs 0 (COLLECT_FRAMES + 1)))).length ≠ 2 * COLLECT_FRAMES := by
  obtain ⟨st', res, h⟩ :=
    runCapture_mkInputs_completes 0 true true COLLECT_FRAMES (COLLECT_FRAMES + 1) 0
      initState rfl (by norm_num [initState]) (Nat.zero_le _)
  rw [h]
  refine ⟨rfl, ?_⟩
  have hlen :=
    (runCapture_finished_WF 0 true true COLLECT_FRAMES _ initState st' res h initState_WF).1
  have hfr :=
    (runCapture_finished_elim 0 true true COLLECT_FRAMES _ initState st' res h).2
      (Nat.zero_le _)
  simp only [outcomeRecords]
  rw [hlen, hfr]
  norm_num [COLLECT_FRAMES]

/-- C2: the busy-wait re-samples the backend and exits only when the sampled
`PresentCount` differs from the last observed value: a successful redraw
step consumed a (possibly empty) prefix of samples all still equal to
`last_frame`, stopped at the first differing sample, used that sample for
the frame's two records, and updated `last_frame` to its `PresentCount`. -/
theorem C2_poll_until_change (w : Int) (inp : FrameInput) (st st' : RunState)
    (h : redrawStep w inp st = .ok st') :
    ∃ pre s rest,
      inp.samples = pre ++ s :: rest ∧
      (∀ x ∈ pre, x.PresentCount = st.last_frame) ∧
      s.PresentCount ≠ st.last_frame ∧
      st'.last_frame = s.PresentCount ∧
      st'.records = st.records ++ [mkHwRecord w s, mkCpuRecord inp.cpuElapsedNs s] := by
  obtain ⟨-, s, rest, hpoll, hst⟩ := redrawStep_ok_elim w inp st st' h
  obtain ⟨pre, hpre, hall, hne⟩ := pollLoop_sound st.last_frame inp.samples s rest hpoll
  exact ⟨pre, s, rest, hpre, hall, hne, by rw [hst], by rw [hst]⟩

/-- C2 witness: a concrete step that discards one stale sample before
exiting the poll loop. -/
theorem C2_poll_until_change_witness :
    ∃ pre s rest,
      pollInput.samples = pre ++ s :: rest ∧
      (∀ x ∈ pre, x.PresentCount = initState.last_frame) ∧
      s.PresentCount ≠ initState.last_frame ∧
      pollState.last_frame = s.PresentCount ∧
      pollState.records = initState.records ++
        [mkHwRecord 0 s, mkCpuRecord pollInput.cpuElapsedNs s] :=
  C2_poll_until_change 0 pollInput initState pollState (by rfl)

/-- C3: for every recorded frame the hardware timestamp equals the sample's
`SyncQPCTime` minus the startup QPC value (native counter ticks), and the
CPU timestamp equals the elapsed nanoseconds since the startup `Instant`
divided by 100 (100ns units) — provided both values fit in `i64`, so the
wrapping subtraction and the truncating `as i64` cast are value-preserving. -/
theorem C3_timestamp_correlation (w : Int) (inp : FrameInput) (st st' : RunState)
    (s : DXGIFrameStatistics) (rest : List DXGIFrameStatistics)
    (h : redrawStep w inp st = .ok st')
    (hs : pollLoop st.last_frame inp.samples = some (s, rest))
    (h1 : -(2 ^ 63) ≤ s.SyncQPCTime - w) (h2 : s.SyncQPCTime - w < 2 ^ 63)
    (h3 : inp.cpuElapsedNs / 100 < 2 ^ 63) :
    st'.records = st.records ++
      [⟨s.SyncQPCTime - w, (s.PresentRefreshCount : Int), "sync_qpc_time"⟩,
       ⟨((inp.cpuElapsedNs / 100 : Nat) : Int), (s.PresentRefreshCount : Int), "cpu_time"⟩] := by
  obtain ⟨-, s2, rest2, hpoll2, hst⟩ := redrawStep_ok_elim w inp st st' h
  rw [hpoll2] at hs
  injection hs with hs
  injection hs with hsa hsb
  subst hsa
  rw [hst]
  simp only [mkHwRecord, mkCpuRecord]
  rw [i64wrap_eq_self _ h1 h2,
    i64wrap_eq_self _ (le_trans (by norm_num) (Int.ofNat_nonneg _)) (by exact_mod_cast h3)]

/-- C3 witness: concrete timestamps 5 − 0 hardware ticks and 300 / 100 = 3
hundred-nanosecond units. -/
theorem C3_timestamp_correlation_witness :
    pollState.records = initState.records ++
      [⟨pollSampleB.SyncQPCTime - 0, (pollSampleB.PresentRefreshCount : Int), "sync_qpc_time"⟩,
       ⟨((pollInput.cpuElapsedNs / 100 : Nat) : Int), (pollSampleB.PresentRefreshCount : Int),
         "cpu_time"⟩] :=
  C3_timestamp_correlation 0 pollInput initState pollState pollSampleB [] (by rfl) (by rfl)
    (by norm_num [pollSampleB]) (by norm_num [pollSampleB]) (by norm_num [pollInput])

/-- C4: every completed poll cycle appends exactly two records in order —
first the hardware-time record (tag "sync_qpc_time"), then the "cpu_time"
record — both carrying the same `count`, namely the polled sample's
`PresentRefreshCount`. -/
theorem C4_pair_appended (w : Int) (inp : FrameInput) (st st' : RunState)
    (h : redrawStep w inp st = .ok st') :
    ∃ s rest, pollLoop st.last_frame inp.samples = some (s, rest) ∧
      st'.records = st.records ++ [mkHwRecord w s, mkCpuRecord inp.cpuElapsedNs s] ∧
      (mkHwRecord w s).event_type = "sync_qpc_time" ∧
      (mkCpuRecord inp.cpuElapsedNs s).event_type = "cpu_time" ∧
      (mkHwRecord w s).count = (s.PresentRefreshCount : Int) ∧
      (mkCpuRecord inp.cpuElapsedNs s).count = (s.PresentRefreshCount : Int) := by
  obtain ⟨-, s, rest, hpoll, hst⟩ := redrawStep_ok_elim w inp st st' h
  exact ⟨s, rest, hpoll, by rw [hst], rfl, rfl, rfl, rfl⟩

/-- C4 witness: the concrete one-frame step appends its hardware/cpu pair. -/
theorem C4_pair_appended_witness :
    ∃ s rest, pollLoop initState.last_frame tinyInput.samples = some (s, rest) ∧
      tinyState.records = initState.records ++
        [mkHwRecord 0 s, mkCpuRecord tinyInput.cpuElapsedNs s] ∧
      (mkHwRecord 0 s).event_type = "sync_qpc_time" ∧
      (mkCpuRecord tinyInput.cpuElapsedNs s).event_type = "cpu_time" ∧
      (mkHwRecord 0 s).count = (s.PresentRefreshCount : Int) ∧
      (mkCpuRecord tinyInput.cpuElapsedNs s).count = (s.PresentRefreshCount : Int) :=
  C4_pair_appended 0 tinyInput initState tinyState (by rfl)

/-- C5 counterexample: the head record of a concrete successful redraw step
carries `event_type = "sync_qpc_time"`, which is not the tag `hardware_time`
the claim names (nor `cpu_time`). -/
theorem C5_counterexample :
    (stepRecords (redrawStep 0 tinyInput initState)).head? =
      some (mkHwRecord 0 tinySample) ∧
    (mkHwRecord 0 tinySample).event_type ≠ "hardware_time" ∧
    (mkHwRecord 0 tinySample).event_type = "sync_qpc_time" := by
  refine ⟨rfl, ?_, rfl⟩
  decide

/-- C5 (amended): every record's `event_type` is one of the two tags the
program writes — "sync_qpc_time" for the hardware clock and "cpu_time" for
the CPU clock; the hardware tag is spelled "sync_qpc_time", not
"hardware_time". -/
theorem C5_event_type_enum (w : Int) (c1 c2 : Bool) (b : Nat)
    (inputs : List FrameInput) (st' : RunState) (res : ExportResult)
    (h : runCapture w c1 c2 b initState inputs = .finished st' res) :
    ∀ r ∈ st'.records,
      r.event_type = "sync_qpc_time" ∨ r.event_type = "cpu_time" :=
  (runCapture_finished_WF w c1 c2 b inputs initState st' res h initState_WF).2.2.2

/-- C5 witness: the hardware record of the concrete one-frame run carries
one of the two tags. -/
theorem C5_event_type_enum_witness :
    (mkHwRecord 0 tinySample).event_type = "sync_qpc_time" ∨
    (mkHwRecord 0 tinySample).event_type = "cpu_time" :=
  C5_event_type_enum 0 true true 0 tinyInputs tinyState
    (write_df_csv true true tinyState.records) (by rfl)
    (mkHwRecord 0 tinySample) (by simp [tinyState])

/-- C6: every finished run's export writes the accumulated records once to
the fixed path "example.csv" as comma-delimited text — a header row naming
the columns timestamp, count, event_type in that order, then one row per
record with its fields in the same order — and any failure to create or
write the output file aborts the process instead. -/
theorem C6_export (w : Int) (c1 c2 : Bool) (b : Nat)
    (inputs : List FrameInput) (st st' : RunState) (res : ExportResult)
    (h : runCapture w c1 c2 b st inputs = .finished st' res) :
    (c1 = true ∧ c2 = true →
      res = .written "example.csv" (csvHeader :: st'.records.map recordCsvRow) ∧
      csvHeader = "timestamp,count,event_type" ∧
      (csvHeader :: st'.records.map recordCsvRow).length = st'.records.length + 1) ∧
    (c1 = false ∨ c2 = false → res = .exportPanicked) := by
  have hres := (runCapture_finished_elim w c1 c2 b inputs st st' res h).1
  constructor
  · rintro ⟨hc1, hc2⟩
    subst hc1; subst hc2
    refine ⟨?_, rfl, by simp⟩
    rw [hres]; rfl
  · intro hor
    rw [hres]
    rcases hor with hc | hc <;> subst hc <;> simp [write_df_csv]

/-- C6 witness: the concrete one-frame run exports its two records under a
header to "example.csv". -/
theorem C6_export_witness :
    (true = true ∧ true = true →
      write_df_csv true true tinyState.records =
        .written "example.csv" (csvHeader :: tinyState.records.map recordCsvRow) ∧
      csvHeader = "timestamp,count,event_type" ∧
      (csvHeader :: tinyState.records.map recordCsvRow).length =
        tinyState.records.length + 1) ∧
    (true = false ∨ true = false →
      write_df_csv true true tinyState.records = .exportPanicked) :=
  C6_export 0 true true 0 tinyInputs initState tinyState
    (write_df_csv true true tinyState.records) (by rfl)

/-- C7 (amended): a failure to acquire the next swapchain texture is not
handled: the `.expect` on `get_current_texture` aborts the process
immediately, the capture does not continue past it, and no record is
appended for that frame — there is no reconfigure-and-retry on the redraw
path. -/
theorem C7_acquire_failure_panics (w : Int) (c1 c2 : Bool) (b : Nat)
    (st : RunState) (inp : FrameInput) (rest : List FrameInput)
    (hacq : inp.acquireOk = false) :
    runCapture w c1 c2 b st (inp :: rest) = .panicked st := by
  rw [runCapture, redrawStep, if_neg (by simp [hacq])]

/-- C7 witness: the failing acquire aborts a budget-10 run at once. -/
theorem C7_acquire_failure_panics_witness :
    runCapture 0 true true 10 initState [badInput] = .panicked initState :=
  C7_acquire_failure_panics 0 true true 10 initState badInput [] rfl

/-- C7 counterexample: with frame budget 10 and a surface-acquisition
failure on the second frame, the run does not reconfigure and continue: it
panics after one captured frame, ending with 2 records instead of the
2 * 10 the claim requires. -/
theorem C7_counterexample :
    runCapture 0 true true 10 initState c7Inputs = .panicked tinyState ∧
    tinyState.records.length ≠ 2 * 10 := by
  exact ⟨rfl, by decide⟩

/-- C8 (spec-modelled external signal): for each of the first `extFrames`
frames the external channel receives the big-endian encoding of the frame
index plus one, written and flushed; in the scenario with external-signal
frame count 2 and frame budget 5 exactly two writes occur, carrying the
values 1 then 2. -/
theorem C8_serial_signal :
    (∀ extFrames i : Nat, i < extFrames →
      serialSignal extFrames i = some ⟨beBytes32 (i + 1), true⟩) ∧
    serialWritesForBudget 5 2 = [⟨[0, 0, 0, 1], true⟩, ⟨[0, 0, 0, 2], true⟩] := by
  constructor
  · intro n i hi
    rw [serialSignal, if_pos hi]
  · decide

/-- C8 witness: the first frame's signal is the flushed big-endian
encoding of 1. -/
theorem C8_serial_signal_witness :
    0 < 2 ∧ serialSignal 2 0 = some ⟨beBytes32 1, true⟩ :=
  ⟨by decide, C8_serial_signal.1 2 0 (by decide)⟩

/-- C9: over any finished run the draw log shows the GPU draw command was
issued exactly on the even values of the running frame index and skipped on
the odd ones. -/
theorem C9_duty_cycle (w : Int) (c1 c2 : Bool) (b : Nat)
    (inputs : List FrameInput) (st' : RunState) (res : ExportResult)
    (h : runCapture w c1 c2 b initState inputs = .finished st' res) :
    st'.drawLog = (List.range st'.running_frame).map (fun i => i % 2 == 0) :=
  (runCapture_finished_WF w c1 c2 b inputs initState st' res h initState_WF).2.2.1

/-- C9 witness: the one-frame run drew on frame 0 (an even index). -/
theorem C9_duty_cycle_witness :
    tinyState.drawLog = (List.range tinyState.running_frame).map (fun i => i % 2 == 0) :=
  C9_duty_cycle 0 true true 0 tinyInputs tinyState
    (write_df_csv true true tinyState.records) (by rfl)

/-- C10: surface configuration at window creation and on every resize clamps
both dimensions to at least 1, so a zero-sized window or zero-extent resize
never reaches `surface.configure` with a zero dimension. -/
theorem C10_size_clamped (w h : Nat) :
    1 ≤ (initialSurfaceSize w h).1 ∧ 1 ≤ (initialSurfaceSize w h).2 ∧
    1 ≤ (resizeSurfaceSize w h).1 ∧ 1 ≤ (resizeSurfaceSize w h).2 :=
  ⟨le_max_right w 1, le_max_right h 1, le_max_right w 1, le_max_right h 1⟩

end Timings
